import Mathlib

/-!
Verification of the kraken repository fragment (`kraken/blla.py` and
`kraken/lib/models.py`) against its natural-language specification.

The segmentation pipeline of `blla.segment` is embedded shallowly:
images and rasters are explicit structures, coordinates are rationals,
the neural network is an opaque function from images to rasters (spec
section 4.2 treats inference as an external collaborator), and the
helpers imported from `kraken.lib.segmentation` and `kraken.lib.util`,
which are not part of this fragment, are modelled from the spec where
indicated.  Fallible code returns `Except`; `segment` additionally
returns a `Bool` recording whether the network forward pass (line 107 of
`blla.py`) was executed, so that "raised before any inference work"
is expressible.
-/

namespace Kraken

/-- A 2D point with rational coordinates. -/
abbrev Pt := ℚ × ℚ

/-- A (baseline, boundary-polygon) pair, the element type handed to the
reading-order function in `blla.segment`. -/
abbrev LinePair := List Pt × List Pt

/-- A PIL image: mode string (for example "RGB", "L" or "1"), pixel
dimensions, and the flat list of pixel values (used only by the
bitonality check). -/
structure PILImage where
  mode : String
  width : Nat
  height : Nat
  pixels : List Nat
deriving DecidableEq, Repr

/-- The network raster output after `squeeze(0)`: a numpy array of shape
(channels, outH, outW); `data` lists the channels, each a list of rows of
probability values. -/
structure Raster where
  channels : Nat
  outH : Nat
  outW : Nat
  data : List (List (List ℚ))
deriving DecidableEq, Repr

/-- The exception raised by input validation in `blla.segment`
(`kraken.lib.exceptions.KrakenInputException`). -/
structure KrakenInputException where
  msg : String
deriving DecidableEq, Repr

/-- One entry of the `lines` list built at `blla.py` line 120:
`{'script': 'default', 'baseline': bl, 'boundary': pl}`. -/
structure LineRec where
  script : String
  baseline : List Pt
  boundary : List Pt
deriving DecidableEq, Repr, Inhabited

/-- The dictionary returned by `blla.segment` (lines 118-120). -/
structure SegResult where
  text_direction : String
  type : String
  lines : List LineRec
deriving DecidableEq, Repr

/-- Modelled from the spec: `kraken.lib.util.is_bitonal` is not in this
fragment; the spec (section 3) describes a bitonal raster as a 2-valued
raster, so the content check is: the image holds at most two distinct
pixel values. -/
def is_bitonal (m : PILImage) : Bool := m.pixels.dedup.length ≤ 2

/-- PIL `Image.convert('1')` as used at `blla.py` line 95: the mode
becomes "1" and every pixel is binarized; the pixel dimensions are
unchanged. -/
def convert1 (m : PILImage) : PILImage :=
  { m with mode := "1", pixels := m.pixels.map (fun v => if 128 ≤ v then 1 else 0) }

/-- Python rendering of a `(width, height)` size tuple, as interpolated
into the mask-size error message at `blla.py` line 98. -/
def dimStr (w h : Nat) : String :=
  "(" ++ toString w ++ ", " ++ toString h ++ ")"

/-- The message of `blla.py` line 98. -/
def maskSizeMsg (mw mh iw ih : Nat) : String :=
  "Mask size " ++ dimStr mw mh ++ " doesn\x27t match image size " ++ dimStr iw ih

/-- Modelled from the spec: the baseline-probability threshold used by
`kraken.lib.segmentation.vectorize_lines` (not in this fragment); the
spec (section 4.3, step 1) only asks for a fixed threshold isolating
candidate baseline pixels. -/
def bl_threshold : ℚ := 3 / 10

/-- A raster pixel coordinate (x, y). -/
abbrev Px := Nat × Nat

/-- 8-neighbourhood adjacency of raster pixels. -/
def adjacent (p q : Px) : Bool :=
  decide (p ≠ q) && decide (max p.1 q.1 - min p.1 q.1 ≤ 1)
    && decide (max p.2 q.2 - min p.2 q.2 ≤ 1)

/-- Candidate pixels of one raster row: the x positions (paired with the
row index y) whose value exceeds the threshold. -/
def rowCandidates (t : ℚ) (y : Nat) : Nat → List ℚ → List Px
  | _, [] => []
  | x, v :: vs =>
      if t < v then (x, y) :: rowCandidates t y (x + 1) vs
      else rowCandidates t y (x + 1) vs

/-- Candidate pixels of a probability map from row `y` downward: all
pixels whose value exceeds the threshold, row by row. -/
def candidate_pixels (t : ℚ) : Nat → List (List ℚ) → List Px
  | _, [] => []
  | y, row :: rows => rowCandidates t y 0 row ++ candidate_pixels t (y + 1) rows

/-- Grow a connected component by repeatedly absorbing the remaining
pixels adjacent to it; `fuel` bounds the number of rounds. -/
def growComponent : Nat → List Px → List Px → List Px × List Px
  | 0, comp, rest => (comp, rest)
  | fuel + 1, comp, rest =>
      let step := rest.partition (fun q => comp.any (fun p => adjacent p q))
      if step.1.isEmpty then (comp, rest)
      else growComponent fuel (comp ++ step.1) step.2

/-- Split a pixel list into connected components, in first-seen order. -/
def componentsAux : Nat → List Px → List (List Px)
  | 0, _ => []
  | _, [] => []
  | fuel + 1, p :: rest =>
      let step := growComponent rest.length [p] rest
      step.1 :: componentsAux fuel step.2

/-- Connected components of a set of candidate pixels. -/
def components (ps : List Px) : List (List Px) := componentsAux ps.length ps

/-- The baseline-class probability map: channel 0 of the raster output. -/
def baselineMap (o : Raster) : List (List ℚ) := o.data.headI

/-- A traced pixel component as a polyline of rational points. -/
def traceToLine (t : List Px) : List Pt :=
  t.map (fun p => ((p.1 : ℚ), (p.2 : ℚ)))

/-- Modelled from the spec: the fixed line height used by the
boundary-estimation heuristic of section 4.4 (the exact local-extent
rule is an explicit open question of the spec, section 9). -/
def line_height : ℚ := 2

/-- Modelled from the spec (section 4.4): the boundary polygon of a
trace, one side following the baseline and the opposite side following
the offset curve in reverse; first and last points are implicitly
connected. -/
def boundary_of (t : List Px) : List Pt :=
  traceToLine t ++ (traceToLine t).reverse.map (fun p => (p.1, p.2 + line_height))

/-- The traces retained by vectorization: connected components of the
thresholded baseline map with at least two pixels (spec section 4.3,
step 4: degenerate traces are discarded). -/
def retained_traces (o : Raster) : List (List Px) :=
  (components (candidate_pixels bl_threshold 0 (baselineMap o))).filter
    (fun t => 2 ≤ t.length)

/-- Modelled from the spec: `kraken.lib.segmentation.vectorize_lines` is
not in this fragment.  Spec section 4.3: threshold the baseline channel,
trace connected skeleton components into ordered point sequences,
discard degenerate traces; section 4.4: attach one boundary polygon per
retained baseline.  The call site at `blla.py` line 112 and the
unpacking `for bl, pl in baselines` at line 120 fix the output type as a
list of (baseline, boundary) pairs in raster coordinates. -/
def vectorize_lines (o : Raster) : List LinePair :=
  (retained_traces o).map (fun t => (traceToLine t, boundary_of t))

/-- The scale factor of `blla.py` line 114:
`np.divide(im.size, o.shape[:0:-1])`, that is
(image width / raster width, image height / raster height). -/
def segScale (im : PILImage) (o : Raster) : ℚ × ℚ :=
  ((im.width : ℚ) / (o.outW : ℚ), (im.height : ℚ) / (o.outH : ℚ))

/-- Scaling of one point by per-axis factors. -/
def scalePt (s : ℚ × ℚ) (p : Pt) : Pt := (p.1 * s.1, p.2 * s.2)

/-- Modelled from the spec: `kraken.lib.segmentation.scale_polygonal_lines`
(called at `blla.py` line 115) is not in this fragment.  Spec section
4.5: multiply every coordinate component of every baseline and boundary
point by the corresponding axis scale; pure, exact, no clipping. -/
def scale_polygonal_lines (ls : List LinePair) (s : ℚ × ℚ) : List LinePair :=
  ls.map (fun bp => (bp.1.map (scalePt s), bp.2.map (scalePt s)))

/-- The record constructor of `blla.py` line 120. -/
def mkLineRec (bp : LinePair) : LineRec :=
  { script := "default", baseline := bp.1, boundary := bp.2 }

/-- The inference-and-postprocessing tail of `segment` (`blla.py` lines
105-120): run the network, vectorize, scale, reorder, wrap.  The `Bool`
component records that the forward pass was executed. -/
def segmentRun (net : PILImage → Raster) (im : PILImage) (text_direction : String)
    (reading_order_fn : List LinePair → String → List LinePair) :
    Except KrakenInputException SegResult × Bool :=
  let o := net im
  let baselines := vectorize_lines o
  let scaled := scale_polygonal_lines baselines (segScale im o)
  let ordered := reading_order_fn scaled (text_direction.takeRight 2)
  (Except.ok
    { text_direction := text_direction
      type := "baselines"
      lines := ordered.map mkLineRec }, true)

/-- `blla.segment` (lines 46-120).  The model is abstracted to the
already-loaded network `net` (model loading is delegated to an external
collaborator, spec section 6).  Control flow follows the source: with a
mask, raise if the mode is not "1" and the content is not bitonal, else
convert to mode "1", raise if the (converted) mask size differs from the
image size, else run the pipeline; the converted mask itself is not used
further by this version of the code.  `text_direction` is never
validated; its last two characters are passed to `reading_order_fn`. -/
def segment (net : PILImage → Raster) (im : PILImage) (text_direction : String)
    (mask : Option PILImage)
    (reading_order_fn : List LinePair → String → List LinePair) :
    Except KrakenInputException SegResult × Bool :=
  match mask with
  | none => segmentRun net im text_direction reading_order_fn
  | some m =>
      if m.mode ≠ "1" ∧ is_bitonal m = false then
        (Except.error { msg := "Mask is not bitonal" }, false)
      else
        let m1 := convert1 m
        if (m1.width, m1.height) ≠ (im.width, im.height) then
          (Except.error
            { msg := maskSizeMsg m1.width m1.height im.width im.height }, false)
        else segmentRun net im text_direction reading_order_fn

/-- The message of an `Except` error, if any. -/
def errMsg (r : Except KrakenInputException SegResult) : Option String :=
  match r with
  | Except.error e => some e.msg
  | Except.ok _ => none

/-!
Embedding of `kraken/lib/models.py`.  The Python objects handled by the
loaders are abstracted to a tagged value type; the possible outcomes of
opening and unpickling a file follow the documented interface of
`open`/`cPickle.Unpickler.load`: besides a successful value,
`cPickle.UnpicklingError` may be raised, and other exceptions (EOFError,
AttributeError, ImportError, IOError from `open`, ...) may be raised as
well.
-/

/-- A Python value as seen by the model loaders: either a
`kraken.lib.lstm.SeqRecognizer` instance or a value of some other type,
tagged with its type name. -/
inductive PyVal where
  | seqRecognizer (id : Nat)
  | other (typeName : String)
deriving DecidableEq, Repr

/-- Outcome of `unpickler.load()` (documented interface of `cPickle`): a
value, a `cPickle.UnpicklingError`, or some other exception such as
`EOFError` on a truncated stream. -/
inductive UnpickleResult where
  | ok (v : PyVal)
  | unpicklingError (msg : String)
  | otherError (exc : String)
deriving DecidableEq, Repr

/-- Outcome of opening the input file: an exception from the opener (for
example `IOError`), or an opened stream whose unpickling behaves as
described by `UnpickleResult`. -/
inductive FileOutcome where
  | openError (exc : String)
  | opened (u : UnpickleResult)
deriving DecidableEq, Repr

/-- Observable outcome of a loader call: a returned value, a raised
`KrakenInvalidModelException` with its message, or some other raised
exception. -/
inductive CallOutcome where
  | returns (v : PyVal)
  | raisesInvalidModel (msg : String)
  | raisesOther (exc : String)
deriving DecidableEq, Repr

/-- `true` exactly when the value is a `SeqRecognizer` instance. -/
def isSeqRec : PyVal → Bool
  | PyVal.seqRecognizer _ => true
  | PyVal.other _ => false

/-- `true` exactly when the outcome is a returned value. -/
def isReturns : CallOutcome → Bool
  | CallOutcome.returns _ => true
  | _ => false

/-- The interface asserted by the claim under review for `load_pyrnn`:
every call returns a `SeqRecognizer` instance or raises
`KrakenInvalidModelException`. -/
def pyrnnClaimedOutcome : CallOutcome → Bool
  | CallOutcome.returns v => isSeqRec v
  | CallOutcome.raisesInvalidModel _ => true
  | CallOutcome.raisesOther _ => false

/-- Opener selection of `models.py` lines 84-88: gzip for `.gz`, bz2 for
`.bz2`, plain `open` otherwise. -/
def openerFor (fname : String) : String :=
  if fname.endsWith ".gz" then "gzip.open"
  else if fname.endsWith ".bz2" then "bz2.BZ2File"
  else "open"

/-- The type name of a Python value. -/
def pyTypeName : PyVal → String
  | PyVal.seqRecognizer _ => "SeqRecognizer"
  | PyVal.other tn => tn

/-- `models.load_pyrnn` (lines 62-100): open the file with the opener
selected by `openerFor` and unpickle it.  Only
`cPickle.UnpicklingError` is caught and re-raised as
`KrakenInvalidModelException`; any other exception from opening or
unpickling propagates.  A successfully unpickled value that is not a
`SeqRecognizer` raises `KrakenInvalidModelException` naming its type;
otherwise the value is returned. -/
def load_pyrnn (fname : String) (file : FileOutcome) : CallOutcome :=
  let _opener := openerFor fname
  match file with
  | FileOutcome.openError e => CallOutcome.raisesOther e
  | FileOutcome.opened u =>
      match u with
      | UnpickleResult.unpicklingError m => CallOutcome.raisesInvalidModel m
      | UnpickleResult.otherError e => CallOutcome.raisesOther e
      | UnpickleResult.ok v =>
          if isSeqRec v then CallOutcome.returns v
          else
            CallOutcome.raisesInvalidModel
              ("Pickle is " ++ pyTypeName v ++ " instead of SeqRecognizer")

/-- An HDF5 model file as read by `load_hdf5`: only the presence and
content of the `codec` dataset matter before the function faults. -/
structure HDF5File where
  codec : Option (List Nat)
deriving DecidableEq, Repr

/-- The names defined at module level in `models.py`: the imports of
lines 11-22 (`import kraken.lib.lstm` and `import kraken.lib.lineest`
bind only `kraken`), the three functions, and Python builtins the file
uses. -/
def moduleNames : List String :=
  ["h5py", "numpy", "cPickle", "gzip", "bz2", "sys", "kraken",
   "CenterNormalizer", "KrakenInvalidModelException",
   "load_hdf5", "load_pyrnn", "pyrnn_to_hdf5",
   "unichr", "open", "setattr", "getattr"]

/-- The local names bound in `load_hdf5` when execution reaches the
`lnorm = lineest.CenterNormalizer(lineheight)` statement (line 44): the
parameters, the file handle `rnn` (the `with` target of line 36), and
`charset`/`codec` from lines 38-41. -/
def hdf5LocalNames : List String :=
  ["fname", "hiddensize", "rnn", "charset", "codec"]

/-- The full name environment of `load_hdf5` at line 44. -/
def hdf5Env : List String := moduleNames ++ hdf5LocalNames

/-- Python name resolution: a name either resolves in the environment or
raises `NameError`. -/
def lookupName (env : List String) (n : String) : Except String Unit :=
  if n ∈ env then Except.ok ()
  else Except.error ("NameError: name " ++ n ++ " is not defined")

/-- `models.load_hdf5` (lines 24-60), traced statement by statement: a
failed `h5py.File` open raises; iterating a missing `codec` dataset
raises `TypeError`; `charset[0] = ''` on an empty charset raises
`IndexError`; otherwise execution reaches line 44, which evaluates the
names `lineest` and `lineheight`, and the weight-copy loop of lines
52-58 evaluates `f` — each resolved against the environment actually in
scope.  The final `return network` is reached only if all lookups
succeed. -/
def load_hdf5 (file : Option HDF5File) (hiddensize : Nat) : CallOutcome :=
  match file with
  | none => CallOutcome.raisesOther "IOError"
  | some rnn =>
      match rnn.codec with
      | none => CallOutcome.raisesOther "TypeError"
      | some xs =>
          if xs.isEmpty then CallOutcome.raisesOther "IndexError"
          else
            match lookupName hdf5Env "lineest" with
            | Except.error e => CallOutcome.raisesOther e
            | Except.ok _ =>
                match lookupName hdf5Env "lineheight" with
                | Except.error e => CallOutcome.raisesOther e
                | Except.ok _ =>
                    match lookupName hdf5Env "f" with
                    | Except.error e => CallOutcome.raisesOther e
                    | Except.ok _ => CallOutcome.returns (PyVal.seqRecognizer hiddensize)

/-!
Concrete fixtures used to evaluate the pipeline on closed inputs.
-/

/-- A 3×3 one-channel raster with full baseline signal on rows 0 and 2
and none on row 1: two traces of three pixels each. -/
def raster1 : Raster :=
  { channels := 1, outH := 3, outW := 3,
    data := [[[1, 1, 1], [0, 0, 0], [1, 1, 1]]] }

/-- A 2×2 one-channel all-zero raster: no signal above threshold. -/
def raster0 : Raster :=
  { channels := 1, outH := 2, outW := 2, data := [[[0, 0], [0, 0]]] }

/-- A network returning `raster1` for every image. -/
def net1 : PILImage → Raster := fun _ => raster1

/-- A network returning `raster0` for every image. -/
def net0 : PILImage → Raster := fun _ => raster0

/-- A 6×6 RGB input image. -/
def im1 : PILImage := { mode := "RGB", width := 6, height := 6, pixels := [] }

/-- A 2×2 RGB input image. -/
def imW : PILImage := { mode := "RGB", width := 2, height := 2, pixels := [] }

/-- A reading-order function that reverses its input; a permutation, as
the spec contract for the pluggable policy requires. -/
def listRev : List LinePair → String → List LinePair := fun ls _ => ls.reverse

/-- A grayscale-mode mask whose content is two-valued (bitonal) and
whose size matches `im1`. -/
def maskL : PILImage :=
  { mode := "L", width := 6, height := 6, pixels := [0, 255, 0, 255] }

/-- A mode-"1" mask whose 1×1 size differs from the 2×2 `imW`. -/
def maskW : PILImage := { mode := "1", width := 1, height := 1, pixels := [0] }

/-- The successful result with no lines, for a given text direction. -/
def emptyResult (td : String) : SegResult :=
  { text_direction := td, type := "baselines", lines := [] }

/-- The result of `segment net1 im1 "horizontal-lr" none listRev`: the
two traces of `raster1`, scaled by (2, 2), in reversed order. -/
def demoResult : SegResult :=
  { text_direction := "horizontal-lr"
    type := "baselines"
    lines :=
      [{ script := "default",
         baseline := [(0, 4), (2, 4), (4, 4)],
         boundary := [(0, 4), (2, 4), (4, 4), (4, 8), (2, 8), (0, 8)] },
       { script := "default",
         baseline := [(0, 0), (2, 0), (4, 0)],
         boundary := [(0, 0), (2, 0), (4, 0), (4, 4), (2, 4), (0, 4)] }] }

/-!
Helper lemmas shared by the claim theorems.
-/

/-- A row all of whose values are below the threshold has no candidate
pixels, whatever the starting column. -/
theorem rowCandidates_eq_nil (t : ℚ) (y : Nat) (row : List ℚ)
    (h : ∀ v ∈ row, v ≤ t) : ∀ x, rowCandidates t y x row = [] := by
  induction row with
  | nil => intro x; rfl
  | cons v vs ih =>
      intro x
      have hv : v ≤ t := h v (List.mem_cons_self v vs)
      have hvs : ∀ w ∈ vs, w ≤ t := fun w hw => h w (List.mem_cons_of_mem v hw)
      simp only [rowCandidates]
      rw [if_neg (not_lt.mpr hv)]
      exact ih hvs (x + 1)

/-- A map all of whose values are below the threshold has no candidate
pixels, whatever the starting row. -/
theorem candidate_pixels_eq_nil (t : ℚ) (m : List (List ℚ))
    (h : ∀ row ∈ m, ∀ v ∈ row, v ≤ t) : ∀ y, candidate_pixels t y m = [] := by
  induction m with
  | nil => intro y; rfl
  | cons row rows ih =>
      intro y
      simp only [candidate_pixels]
      rw [rowCandidates_eq_nil t y row (h row (List.mem_cons_self row rows)) 0,
        ih (fun s hs => h s (List.mem_cons_of_mem row hs)) (y + 1)]
      rfl

/-- Shape of every successful `segment` result: the record built at
`blla.py` lines 118-120 from the reordered, rescaled, vectorized
lines. -/
theorem segment_ok_eq (net : PILImage → Raster) (im : PILImage) (td : String)
    (mask : Option PILImage) (ro : List LinePair → String → List LinePair)
    (r : SegResult) (hr : (segment net im td mask ro).1 = Except.ok r) :
    r = { text_direction := td, type := "baselines",
          lines := (ro (scale_polygonal_lines (vectorize_lines (net im))
              (segScale im (net im))) (td.takeRight 2)).map mkLineRec } := by
  cases mask with
  | none =>
      simp only [segment, segmentRun] at hr
      exact (Except.ok.inj hr).symm
  | some m =>
      simp only [segment, segmentRun] at hr
      split at hr
      · simp at hr
      · split at hr
        · simp at hr
        · exact (Except.ok.inj hr).symm

/-!
Claim theorems.
-/

/-- C1 counterexample: `maskL` has mode "L" (not the bitonal mode "1"),
yet `segment` raises no error and executes the forward pass, because
the source only raises when the mode is not "1" AND the content is not
bitonal (`blla.py` line 92); `maskL`'s content is two-valued. -/
theorem segment_nonbitonal_mode_mask_accepted :
    maskL.mode ≠ "1" ∧
    segment net0 im1 "horizontal-lr" (some maskL) listRev =
      (Except.ok (emptyResult "horizontal-lr"), true) := by
  exact ⟨by decide, by with_unfolding_all rfl⟩

/-- C1 (amended): for every call to `segment` with a mask that is not
bitonal (mode is not "1" and the content is not two-valued) or whose
pixel dimensions differ from the image's, `segment` raises
`KrakenInputException` before the network forward pass is executed
(the executed-flag is `false`), and in the dimension-mismatch case
(mask bitonal, sizes different) the error message contains both the
mask's and the image's dimensions. -/
theorem segment_mask_validation (net : PILImage → Raster) (im : PILImage)
    (td : String) (ro : List LinePair → String → List LinePair) (m : PILImage)
    (hbad : (m.mode ≠ "1" ∧ is_bitonal m = false) ∨
      (m.width, m.height) ≠ (im.width, im.height)) :
    (segment net im td (some m) ro).2 = false ∧
    (errMsg (segment net im td (some m) ro).1).isSome = true ∧
    ((m.mode = "1" ∨ is_bitonal m = true) →
      errMsg (segment net im td (some m) ro).1 =
        some (maskSizeMsg m.width m.height im.width im.height) ∧
      maskSizeMsg m.width m.height im.width im.height =
        "Mask size " ++ dimStr m.width m.height ++
          " doesn\x27t match image size " ++ dimStr im.width im.height) := by
  by_cases hbit : m.mode ≠ "1" ∧ is_bitonal m = false
  · simp only [segment]
    rw [if_pos hbit]
    refine ⟨rfl, rfl, ?_⟩
    intro hgood
    rcases hgood with hg | hg
    · exact absurd hg hbit.1
    · rw [hbit.2] at hg; cases hg
  · have hsz : (m.width, m.height) ≠ (im.width, im.height) := by
      rcases hbad with hb | hb
      · exact absurd hb hbit
      · exact hb
    simp only [segment]
    rw [if_neg hbit, if_pos (show ((convert1 m).width, (convert1 m).height) ≠
      (im.width, im.height) from hsz)]
    exact ⟨rfl, rfl, fun _ => ⟨rfl, rfl⟩⟩

/-- Witness for the amended C1: image 2×2, bitonal 1×1 mask — the
hypothesis holds and `segment` fails before the forward pass. -/
theorem segment_mask_validation_witness :
    ((maskW.mode ≠ "1" ∧ is_bitonal maskW = false) ∨
      (maskW.width, maskW.height) ≠ (imW.width, imW.height)) ∧
    (segment net0 imW "horizontal-lr" (some maskW) listRev).2 = false ∧
    (errMsg (segment net0 imW "horizontal-lr" (some maskW) listRev).1).isSome = true :=
  ⟨Or.inr (by decide),
   (segment_mask_validation net0 imW "horizontal-lr" listRev maskW (Or.inr (by decide))).1,
   (segment_mask_validation net0 imW "horizontal-lr" listRev maskW (Or.inr (by decide))).2.1⟩

/-- C2: the code never validates `text_direction`.  Called with the
unrecognized tag "bogus-direction", `segment` raises nothing, executes
the forward pass (flag `true`) and returns a successful result carrying
the bogus tag — although the docstring of `segment` (`blla.py` lines
82-84) promises `KrakenInputException` when the text direction is
invalid. -/
theorem segment_accepts_invalid_direction :
    segment net0 im1 "bogus-direction" none listRev =
      (Except.ok (emptyResult "bogus-direction"), true) := by
  with_unfolding_all rfl

/-- C3: the scale factor is (image width / raster width, image height /
raster height), and rescaling multiplies every coordinate of every
baseline and boundary point by the corresponding axis scale, exactly and
with no clipping, preserving the number of lines, the order and number
of points of every polyline and polygon. -/
theorem scale_polygonal_lines_exact (ls : List LinePair) (im : PILImage) (o : Raster) :
    segScale im o = ((im.width : ℚ) / (o.outW : ℚ), (im.height : ℚ) / (o.outH : ℚ)) ∧
    (scale_polygonal_lines ls (segScale im o)).length = ls.length ∧
    List.Forall₂ (fun bp bq =>
        bq.1 = bp.1.map (fun p => (p.1 * (segScale im o).1, p.2 * (segScale im o).2)) ∧
        bq.2 = bp.2.map (fun p => (p.1 * (segScale im o).1, p.2 * (segScale im o).2)) ∧
        bq.1.length = bp.1.length ∧ bq.2.length = bp.2.length)
      ls (scale_polygonal_lines ls (segScale im o)) := by
  refine ⟨rfl, by simp [scale_polygonal_lines], ?_⟩
  induction ls with
  | nil => exact List.Forall₂.nil
  | cons a l ih =>
      exact List.Forall₂.cons ⟨rfl, rfl, by simp, by simp⟩ ih

/-- C4: for every successful `segment` invocation with a reading-order
function meeting the spec contract (its output is a permutation of its
input), the result's line records are exactly the vectorized-and-
rescaled line records reordered: a permutation, with no duplication and
no loss. -/
theorem segment_lines_perm (net : PILImage → Raster) (im : PILImage) (td : String)
    (mask : Option PILImage) (ro : List LinePair → String → List LinePair)
    (hro : ∀ ls d, List.Perm (ro ls d) ls) (r : SegResult)
    (hr : (segment net im td mask ro).1 = Except.ok r) :
    List.Perm r.lines
      ((scale_polygonal_lines (vectorize_lines (net im))
        (segScale im (net im))).map mkLineRec) := by
  rw [segment_ok_eq net im td mask ro r hr]
  exact (hro _ _).map mkLineRec

/-- Witness for C4 at the two-line raster `raster1` and the reversing
reading-order function. -/
theorem segment_lines_perm_witness :
    List.Perm demoResult.lines
      ((scale_polygonal_lines (vectorize_lines (net1 im1))
        (segScale im1 (net1 im1))).map mkLineRec) :=
  segment_lines_perm net1 im1 "horizontal-lr" none listRev
    (fun ls _ => ls.reverse_perm) demoResult (by with_unfolding_all rfl)

/-- C5: for every successful `segment` invocation with a permutation
reading-order function, the number of line records equals the number of
retained baselines, the number of produced baselines, and the number of
boundary polygons: a 1:1 pairing with nothing unmatched. -/
theorem segment_lines_cardinality (net : PILImage → Raster) (im : PILImage)
    (td : String) (mask : Option PILImage)
    (ro : List LinePair → String → List LinePair)
    (hro : ∀ ls d, List.Perm (ro ls d) ls) (r : SegResult)
    (hr : (segment net im td mask ro).1 = Except.ok r) :
    r.lines.length = (retained_traces (net im)).length ∧
    r.lines.length = ((vectorize_lines (net im)).map Prod.fst).length ∧
    r.lines.length = ((vectorize_lines (net im)).map Prod.snd).length := by
  rw [segment_ok_eq net im td mask ro r hr]
  have hlen : ((ro (scale_polygonal_lines (vectorize_lines (net im))
      (segScale im (net im))) (td.takeRight 2)).map mkLineRec).length =
      (retained_traces (net im)).length := by
    rw [List.length_map, (hro _ _).length_eq]
    simp [scale_polygonal_lines, vectorize_lines]
  have hfst : ((vectorize_lines (net im)).map Prod.fst).length =
      (retained_traces (net im)).length := by simp [vectorize_lines]
  have hsnd : ((vectorize_lines (net im)).map Prod.snd).length =
      (retained_traces (net im)).length := by simp [vectorize_lines]
  exact ⟨hlen, hlen.trans hfst.symm, hlen.trans hsnd.symm⟩

/-- Witness for C5 at the two-line raster `raster1`. -/
theorem segment_lines_cardinality_witness :
    demoResult.lines.length = (retained_traces (net1 im1)).length ∧
    demoResult.lines.length = ((vectorize_lines (net1 im1)).map Prod.fst).length ∧
    demoResult.lines.length = ((vectorize_lines (net1 im1)).map Prod.snd).length :=
  segment_lines_cardinality net1 im1 "horizontal-lr" none listRev
    (fun ls _ => ls.reverse_perm) demoResult (by with_unfolding_all rfl)

/-- C6: when no value of the baseline map exceeds the threshold (for
example an all-zero probability map), vectorization returns the empty
collection and `segment` (with a permutation reading-order function)
returns a successful result with an empty `lines` list — no error is
raised for the absence of text lines. -/
theorem segment_empty_no_signal (net : PILImage → Raster) (im : PILImage)
    (td : String) (ro : List LinePair → String → List LinePair)
    (hro : ∀ ls d, List.Perm (ro ls d) ls)
    (hzero : ∀ row ∈ baselineMap (net im), ∀ v ∈ row, v ≤ bl_threshold) :
    vectorize_lines (net im) = [] ∧
    segment net im td none ro = (Except.ok (emptyResult td), true) := by
  have hc : candidate_pixels bl_threshold 0 (baselineMap (net im)) = [] :=
    candidate_pixels_eq_nil bl_threshold (baselineMap (net im)) hzero 0
  have hv : vectorize_lines (net im) = [] := by
    rw [vectorize_lines, retained_traces, hc]
    rfl
  have hor : ro [] (td.takeRight 2) = [] := (hro [] (td.takeRight 2)).eq_nil
  refine ⟨hv, ?_⟩
  simp only [segment, segmentRun, hv]
  rw [show scale_polygonal_lines [] (segScale im (net im)) = [] from rfl, hor]
  rfl

/-- Witness for C6 at the all-zero raster `raster0`. -/
theorem segment_empty_no_signal_witness :
    vectorize_lines (net0 im1) = [] ∧
    segment net0 im1 "horizontal-lr" none listRev =
      (Except.ok (emptyResult "horizontal-lr"), true) :=
  segment_empty_no_signal net0 im1 "horizontal-lr" listRev
    (fun ls _ => ls.reverse_perm) (by with_unfolding_all decide)

/-- C7: degenerate traces (fewer than 2 pixels) are discarded during
vectorization — every vectorized baseline, and every baseline in the
final result of a successful `segment` invocation with a permutation
reading-order function, has at least 2 points. -/
theorem segment_min_baseline_points (net : PILImage → Raster) (im : PILImage)
    (td : String) (mask : Option PILImage)
    (ro : List LinePair → String → List LinePair)
    (hro : ∀ ls d, List.Perm (ro ls d) ls) (r : SegResult)
    (hr : (segment net im td mask ro).1 = Except.ok r) :
    (∀ bp ∈ vectorize_lines (net im), 2 ≤ bp.1.length) ∧
    ∀ rec ∈ r.lines, 2 ≤ rec.baseline.length := by
  have hv : ∀ bp ∈ vectorize_lines (net im), 2 ≤ bp.1.length := by
    intro bp hbp
    simp only [vectorize_lines, List.mem_map] at hbp
    obtain ⟨tr, htr, rfl⟩ := hbp
    simp only [retained_traces, List.mem_filter, decide_eq_true_eq] at htr
    simpa [traceToLine] using htr.2
  refine ⟨hv, ?_⟩
  intro rec hrec
  rw [segment_ok_eq net im td mask ro r hr] at hrec
  simp only [List.mem_map] at hrec
  obtain ⟨bp, hbp, rfl⟩ := hrec
  have hbp2 : bp ∈ scale_polygonal_lines (vectorize_lines (net im))
      (segScale im (net im)) := (hro _ _).mem_iff.mp hbp
  simp only [scale_polygonal_lines, List.mem_map] at hbp2
  obtain ⟨bq, hbq, rfl⟩ := hbp2
  simpa [mkLineRec] using hv bq hbq

/-- Witness for C7: the first line of the demo result has at least 2
baseline points. -/
theorem segment_min_baseline_points_witness :
    2 ≤ demoResult.lines.headI.baseline.length :=
  (segment_min_baseline_points net1 im1 "horizontal-lr" none listRev
    (fun ls _ => ls.reverse_perm) demoResult (by with_unfolding_all rfl)).2
    demoResult.lines.headI (by with_unfolding_all decide)

/-- C8: every successful `segment` result carries the `text_direction`
argument unchanged, the type tag "baselines", and as `lines` exactly the
records (script, baseline, boundary) built from the reading-order
function's output, in that order. -/
theorem segment_result_shape (net : PILImage → Raster) (im : PILImage)
    (td : String) (mask : Option PILImage)
    (ro : List LinePair → String → List LinePair) (r : SegResult)
    (hr : (segment net im td mask ro).1 = Except.ok r) :
    r.text_direction = td ∧ r.type = "baselines" ∧
    r.lines = (ro (scale_polygonal_lines (vectorize_lines (net im))
      (segScale im (net im))) (td.takeRight 2)).map mkLineRec := by
  rw [segment_ok_eq net im td mask ro r hr]
  exact ⟨rfl, rfl, rfl⟩

/-- Witness for C8 at the two-line raster `raster1`. -/
theorem segment_result_shape_witness :
    demoResult.text_direction = "horizontal-lr" ∧
    demoResult.type = "baselines" ∧
    demoResult.lines = (listRev (scale_polygonal_lines (vectorize_lines (net1 im1))
      (segScale im1 (net1 im1))) ("horizontal-lr".takeRight 2)).map mkLineRec :=
  segment_result_shape net1 im1 "horizontal-lr" none listRev demoResult
    (by with_unfolding_all rfl)

/-- C9 counterexample: a truncated pickle makes `unpickler.load()` raise
`EOFError`, which is not `cPickle.UnpicklingError` and therefore is not
caught at `models.py` line 94: the call neither returns a
`SeqRecognizer` nor raises `KrakenInvalidModelException`. -/
theorem load_pyrnn_other_exception :
    pyrnnClaimedOutcome
      (load_pyrnn "model.pyrnn"
        (FileOutcome.opened (UnpickleResult.otherError "EOFError"))) = false := by
  rfl

/-- C9 (amended): `load_pyrnn` never returns a value that is not a
`SeqRecognizer` instance; an `UnpicklingError` is re-raised as
`KrakenInvalidModelException` with the same message, an unpickled value
of any other type raises `KrakenInvalidModelException` naming that
type, and any other exception from opening or unpickling the file
propagates unchanged. -/
theorem load_pyrnn_amended (fname : String) (file : FileOutcome) :
    (∀ v, load_pyrnn fname file = CallOutcome.returns v → isSeqRec v = true) ∧
    (∀ m, file = FileOutcome.opened (UnpickleResult.unpicklingError m) →
      load_pyrnn fname file = CallOutcome.raisesInvalidModel m) ∧
    (∀ tn, file = FileOutcome.opened (UnpickleResult.ok (PyVal.other tn)) →
      load_pyrnn fname file =
        CallOutcome.raisesInvalidModel
          ("Pickle is " ++ tn ++ " instead of SeqRecognizer")) ∧
    (∀ e, file = FileOutcome.openError e ∨
        file = FileOutcome.opened (UnpickleResult.otherError e) →
      load_pyrnn fname file = CallOutcome.raisesOther e) := by
  refine ⟨?_, ?_, ?_, ?_⟩
  · intro v hv
    rcases file with e | u
    · simp [load_pyrnn] at hv
    · rcases u with w | m | e
      · rcases w with i | tn
        · simp [load_pyrnn, isSeqRec] at hv
          rw [← hv]
          rfl
        · simp [load_pyrnn, isSeqRec] at hv
      · simp [load_pyrnn] at hv
      · simp [load_pyrnn] at hv
  · intro m hm
    subst hm
    rfl
  · intro tn htn
    subst htn
    rfl
  · intro e he
    rcases he with he | he <;> subst he <;> rfl

/-- Witness for the amended C9: unpickling a plain dict raises
`KrakenInvalidModelException` naming the type. -/
theorem load_pyrnn_amended_witness :
    load_pyrnn "model.pyrnn"
      (FileOutcome.opened (UnpickleResult.ok (PyVal.other "dict"))) =
      CallOutcome.raisesInvalidModel
        ("Pickle is " ++ "dict" ++ " instead of SeqRecognizer") :=
  (load_pyrnn_amended "model.pyrnn"
    (FileOutcome.opened (UnpickleResult.ok (PyVal.other "dict")))).2.2.1 "dict" rfl

/-- C10: `load_hdf5` never returns: for every input it raises an
unhandled exception, because the names `lineest`, `lineheight` and `f`
used in its body are not bound in its environment (the HDF5 file is
bound to `rnn`, not `f`; `import kraken.lib.lineest` binds only
`kraken`; no `lineheight` is ever assigned) — the success path is
unreachable. -/
theorem load_hdf5_never_returns (file : Option HDF5File) (hiddensize : Nat) :
    isReturns (load_hdf5 file hiddensize) = false ∧
    lookupName hdf5Env "lineest" =
      Except.error "NameError: name lineest is not defined" ∧
    lookupName hdf5Env "lineheight" =
      Except.error "NameError: name lineheight is not defined" ∧
    lookupName hdf5Env "f" =
      Except.error "NameError: name f is not defined" := by
  have hl1 : lookupName hdf5Env "lineest" =
      Except.error "NameError: name lineest is not defined" := by rfl
  refine ⟨?_, hl1, by rfl, by rfl⟩
  cases file with
  | none => rfl
  | some rnn =>
      cases hc : rnn.codec with
      | none => simp [load_hdf5, hc, isReturns]
      | some xs =>
          cases he : xs.isEmpty with
          | true => simp [load_hdf5, hc, he, isReturns]
          | false => simp [load_hdf5, hc, he, hl1, isReturns]

end Kraken
